import Mathlib

/-!
Shallow embedding of `resistance_calculator_v2.1.py` (hull-resistance-calculator).

The program is float/numpy numeric code; it is embedded over the real numbers.
Pure formulas are translated literally from the source; numpy vectorized
operations over a speed array become `List.map` of a per-speed entry function.
The stateful `ResistanceCalculator` (which stores the last result dictionary in
`self.results`) is embedded as explicit state passing on a record holding an
`Option ResultSet`.  Methods that `raise ValueError` are embedded as `Except`.
-/

noncomputable section

/-- `Config.WATER_DENSITY = 1025` (kg/m^3, seawater). -/
def WATER_DENSITY : ℝ := 1025

/-- `Config.KINEMATIC_VISCOSITY = 1.1892e-6` (m^2/s at 15 C). -/
def KINEMATIC_VISCOSITY : ℝ := 1.1892e-6

/-- `Config.GRAVITY = 9.81` (m/s^2). -/
def GRAVITY : ℝ := 9.81

/-- The individual validation messages appended to the `errors` list in
`HullParameters._validate_parameters`.  Each constructor stands for one exact
source string:
* `lengthPositive` = "Comprimento deve ser positivo"
* `beamPositive`   = "Boca deve ser positiva"
* `draftPositive`  = "Calado deve ser positivo"
* `cbRange cb`     = f"Coeficiente de bloco (CB={cb}) deve estar entre 0.3 e 1.0"
  (the interpolated CB value is carried as the constructor argument)
* `cbHint`         = "Dica: Para barcos rápidos, use CB entre 0.35-0.45" -/
inductive ValidationMsg where
  | lengthPositive
  | beamPositive
  | draftPositive
  | cbRange (cb : ℝ)
  | cbHint

/-- The single aggregated `ValueError` raised by `_validate_parameters` carries
the full list of violated-rule messages (joined with newlines in the source). -/
abbrev ValidationError := List ValidationMsg

/-- The nine fields of the `HullParameters` dataclass after `__post_init__`
has completed the missing optional fields. -/
structure HullParameters where
  L : ℝ
  B : ℝ
  T : ℝ
  CB : ℝ
  CM : ℝ
  LCB : ℝ
  S : ℝ
  V : ℝ
  APP : ℝ

/-- `HullParameters._validate_parameters`: the list of error messages collected
(in source order) for the given required fields.  The source appends one
message per violated rule, and two messages (the range message and the hint)
when CB is outside `[0.3, 1.0]`; it raises iff the list is nonempty. -/
def validationErrors (L B T CB : ℝ) : ValidationError :=
  (if L ≤ 0 then [ValidationMsg.lengthPositive] else []) ++
  (if B ≤ 0 then [ValidationMsg.beamPositive] else []) ++
  (if T ≤ 0 then [ValidationMsg.draftPositive] else []) ++
  (if ¬ (0.3 ≤ CB ∧ CB ≤ 1.0) then [ValidationMsg.cbRange CB, ValidationMsg.cbHint] else [])

/-- Construction of a `HullParameters` dataclass: `__post_init__` first runs
`_validate_parameters` (raising the aggregated `ValueError` when any rule is
violated, so no object is produced), then `_calculate_missing_parameters`,
which fills exactly the fields that were passed as `None`:
`V = L*B*T*CB`, then `S` by the Holtrop wetted-surface regression using the
(already resolved) `V`, then `CM = 0.98`, `LCB = 0.5`,
`APP = 0.5*pi*(0.7*T)^2`.  Caller-supplied optional values are kept as-is. -/
def HullParameters.create (L B T CB : ℝ) (CM LCB S V APP : Option ℝ) :
    Except ValidationError HullParameters :=
  if (validationErrors L B T CB).isEmpty then
    let V' := V.getD (L * B * T * CB)
    let S' := S.getD (L * (2 * T + B) * Real.sqrt CB *
      (0.453 + 0.4425 * CB - 0.2862 * CB ^ 2 - 0.003467 * B / T + 0.3696 * CB * B / T) +
      2.38 * V' / CB / L)
    let CM' := CM.getD 0.98
    let LCB' := LCB.getD 0.5
    let APP' := APP.getD (0.5 * Real.pi * (0.7 * T) ^ 2)
    Except.ok ⟨L, B, T, CB, CM', LCB', S', V', APP'⟩
  else Except.error (validationErrors L B T CB)

/-- The semantic content of the string returned by `HullParameters.summary`:
which of the two fixed label templates was chosen (`'portuguese'` vs the
English default branch) and the nine field values that are interpolated into
it at fixed precision.  The two templates differ in their constant text, and
the interpolated digits are a function of the field values alone, so two
source strings are equal exactly when these data agree. -/
structure SummaryReport where
  portugueseLabels : Bool
  L : ℝ
  B : ℝ
  T : ℝ
  CB : ℝ
  CM : ℝ
  LCB : ℝ
  V : ℝ
  S : ℝ
  APP : ℝ

/-- `HullParameters.summary(self, language=None)`.  The source computes
`lang = language or Config.LANGUAGE`: Python's `or` falls back to the global
`Config.LANGUAGE` both when `language` is `None` and when it is the falsy
empty string.  The global is passed here explicitly as `globalLanguage` so
that the dependence on process-wide state is visible in the type. -/
def HullParameters.summary (h : HullParameters) (language : Option String)
    (globalLanguage : String) : SummaryReport :=
  let lang := match language with
    | none => globalLanguage
    | some s => if s = "" then globalLanguage else s
  if lang = "portuguese" then
    ⟨true, h.L, h.B, h.T, h.CB, h.CM, h.LCB, h.V, h.S, h.APP⟩
  else
    ⟨false, h.L, h.B, h.T, h.CB, h.CM, h.LCB, h.V, h.S, h.APP⟩

/-- Real-number semantics of the numpy expression `np.exp(-0.9/Fn)` in
`calculate_holtrop`.  For `fn ≠ 0` this is exactly `Real.exp (-0.9 / fn)`.
At `fn = 0` numpy evaluates `-0.9/0.0` to `-inf` (emitting a warning, not an
error) and `np.exp (-inf)` is exactly `+0.0`, so the value of the entry is `0`;
Lean's division-by-zero convention would instead give `Real.exp 0 = 1`, which
does not match the program, hence the explicit branch for the IEEE value. -/
def expNegQuot (fn : ℝ) : ℝ :=
  if fn = 0 then 0 else Real.exp (-0.9 / fn)

/-- One row of the result dictionary built by
`ResistanceCalculator.calculate_holtrop` (all arrays are index-parallel; the
embedding groups the entries at one speed into a record). -/
structure HoltropEntry where
  speed_mps : ℝ
  speed_knots : ℝ
  froude : ℝ
  reynolds : ℝ
  resistance_total_N : ℝ
  resistance_total_kN : ℝ
  resistance_friction_N : ℝ
  residual_resistance_N : ℝ
  cf_coefficient : ℝ
  effective_power_kW : ℝ

/-- The per-speed computation of `ResistanceCalculator.calculate_holtrop`,
translated literally (`np.sqrt` = `Real.sqrt`, `np.log10` = `Real.logb 10`,
float `**` with non-integer exponent = `Real.rpow`).  The embedding is the
exact real semantics of the source for speeds `v > 0` (where every log and
power is in its domain).  At `v = 0` numpy produces IEEE special values in
intermediate terms; there the embedding agrees with the program on the
`RF`, `RR`, `RT` and power entries (all `0 * x` products), see `expNegQuot`. -/
def holtropEntry (h : HullParameters) (v : ℝ) : HoltropEntry :=
  let Fn := v / Real.sqrt (GRAVITY * h.L)
  let Rn := v * h.L / KINEMATIC_VISCOSITY
  let CF := 0.075 / (Real.logb 10 Rn - 2) ^ 2
  let RF := 0.5 * WATER_DENSITY * v ^ 2 * h.S * CF
  let c1 := 2223105 * (h.B / h.L) ^ (1.07961 : ℝ) * ((90 : ℝ) - 0.3) ^ (-1.37565 : ℝ)
  let c2 := Real.exp (-1.89 * Real.sqrt c1)
  let c3 := 0.56 * (h.B * h.T) ^ (1.5 : ℝ) /
    (h.V * (0.31 * Real.sqrt (h.B * h.T) + h.T))
  let c12 := h.L ^ 3 / h.V
  let c13 := 1 + 0.003 * h.LCB
  let RR := h.V * WATER_DENSITY * GRAVITY * c2 * c3 * c12 ^ (0.004 : ℝ) *
    expNegQuot Fn * c13
  let RT := RF + RR
  { speed_mps := v
    speed_knots := v * 1.944
    froude := Fn
    reynolds := Rn
    resistance_total_N := RT
    resistance_total_kN := RT / 1000
    resistance_friction_N := RF
    residual_resistance_N := RR
    cf_coefficient := CF
    effective_power_kW := RT * v / 1000 }

/-- One row of the result dictionary built by
`ResistanceCalculator.calculate_simple`. -/
structure SimpleEntry where
  speed_mps : ℝ
  speed_knots : ℝ
  froude : ℝ
  resistance_total_N : ℝ
  resistance_total_kN : ℝ
  effective_power_kW : ℝ

/-- The per-speed computation of `ResistanceCalculator.calculate_simple`. -/
def simpleEntry (h : HullParameters) (v : ℝ) : SimpleEntry :=
  let Fn := v / Real.sqrt (GRAVITY * h.L)
  let RT := 0.5 * WATER_DENSITY * v ^ 2 * h.S * (0.001 + 0.002 * Fn ^ 2)
  { speed_mps := v
    speed_knots := v * 1.944
    froude := Fn
    resistance_total_N := RT
    resistance_total_kN := RT / 1000
    effective_power_kW := RT * v / 1000 }

/-- The result dictionary stored in `self.results`: one of the two
method-dependent shapes. -/
inductive ResultSet where
  | holtrop (entries : List HoltropEntry)
  | simple (entries : List SimpleEntry)

/-- `ResistanceCalculator`: holds the hull and the last computed result
(`self.results`, initialized to `None` in `__init__`). -/
structure ResistanceCalculator where
  hull : HullParameters
  results : Option ResultSet

/-- `ResistanceCalculator.__init__(hull_params)`: stores the hull and sets
`self.results = None`. -/
def ResistanceCalculator.init (h : HullParameters) : ResistanceCalculator :=
  ⟨h, none⟩

/-- Errors raised (or, per the spec, expected) by `ResistanceCalculator`
methods.  `noResult` is the `ValueError("Execute o cálculo primeiro")` raised
by `export_results` / `plot_results` / `print_summary` when `self.results is
None`.  `numericDomain` is the spec's `NumericDomainError`; no code path in
the source constructs it. -/
inductive CalcError where
  | noResult
  | numericDomain

/-- `ResistanceCalculator.calculate_holtrop(speeds)`: computes the result
dictionary and assigns it to `self.results`, returning it.  The method body
contains no `raise`; it always succeeds.  The embedding returns the new
result together with the updated calculator state. -/
def ResistanceCalculator.calculate_holtrop (c : ResistanceCalculator)
    (speeds : List ℝ) : ResultSet × ResistanceCalculator :=
  let r := ResultSet.holtrop (speeds.map (holtropEntry c.hull))
  (r, ⟨c.hull, some r⟩)

/-- `ResistanceCalculator.calculate_simple(speeds)`: as `calculate_holtrop`
but with the simplified formula; also always succeeds and overwrites
`self.results`. -/
def ResistanceCalculator.calculate_simple (c : ResistanceCalculator)
    (speeds : List ℝ) : ResultSet × ResistanceCalculator :=
  let r := ResultSet.simple (speeds.map (simpleEntry c.hull))
  (r, ⟨c.hull, some r⟩)

/-- `calculate_holtrop` with an explicit error channel, to make claims about
raised errors statable.  The source method body contains no `raise` statement
and numpy division-by-zero / log-domain conditions only emit warnings (they
produce IEEE `inf`/`nan` values rather than exceptions), so the embedded
method is `Except.ok` on every input. -/
def ResistanceCalculator.calculate_holtropE (c : ResistanceCalculator)
    (speeds : List ℝ) : Except CalcError (ResultSet × ResistanceCalculator) :=
  Except.ok (c.calculate_holtrop speeds)

/-- `ResistanceCalculator.export_results(filename=None)`: raises when
`self.results is None`; otherwise serializes the stored result set to CSV
(the file write is an external effect; the embedding returns the data that is
serialized).  The filename argument is irrelevant to the guard. -/
def ResistanceCalculator.export_results (c : ResistanceCalculator)
    (filename : Option String) : Except CalcError ResultSet :=
  match c.results with
  | none => Except.error CalcError.noResult
  | some r => Except.ok r

/-- `ResistanceCalculator.plot_results(save_path=None, language=None)`:
raises when `self.results is None`; otherwise renders the stored result set
(an external effect; the embedding returns the plotted data). -/
def ResistanceCalculator.plot_results (c : ResistanceCalculator)
    (save_path : Option String) (language : Option String) : Except CalcError ResultSet :=
  match c.results with
  | none => Except.error CalcError.noResult
  | some r => Except.ok r

/-- `ResistanceCalculator.print_summary(language=None)`: raises when
`self.results is None`; otherwise prints the first rows of the stored result
set (an external effect; the embedding returns the printed data). -/
def ResistanceCalculator.print_summary (c : ResistanceCalculator)
    (language : Option String) : Except CalcError ResultSet :=
  match c.results with
  | none => Except.error CalcError.noResult
  | some r => Except.ok r

/-- The hull of the spec's concrete scenario: `HullParameters(L=150, B=20,
T=8, CB=0.70)` with every optional field auto-derived. -/
def standardHull : HullParameters :=
  { L := 150, B := 20, T := 8, CB := 0.7, CM := 0.98, LCB := 0.5
    S := 150 * (2 * 8 + 20) * Real.sqrt 0.7 *
      (0.453 + 0.4425 * 0.7 - 0.2862 * 0.7 ^ 2 - 0.003467 * 20 / 8 + 0.3696 * 0.7 * 20 / 8) +
      2.38 * (150 * 20 * 8 * 0.7) / 0.7 / 150
    V := 150 * 20 * 8 * 0.7
    APP := 0.5 * Real.pi * (0.7 * 8) ^ 2 }

/-- A speed (about 7.9e-7 m/s) that drives the Reynolds number of the
concrete scenario hull to exactly `100`, making the friction-coefficient
denominator `(log10 Rn - 2)^2` exactly zero. -/
def rn100Speed : ℝ := 100 * KINEMATIC_VISCOSITY / 150

/-- First counterexample speed for the monotonicity claim: the speed whose
Reynolds number on the concrete scenario hull is `10^(9/4) ≈ 178`. -/
def cexSpeed1 : ℝ := (10 : ℝ) ^ ((9 : ℝ) / 4) * KINEMATIC_VISCOSITY / 150

/-- Second counterexample speed for the monotonicity claim: the speed whose
Reynolds number on the concrete scenario hull is `10^(5/2) ≈ 316`. -/
def cexSpeed2 : ℝ := (10 : ℝ) ^ ((5 : ℝ) / 2) * KINEMATIC_VISCOSITY / 150

/-! ## Helper lemmas -/

/-- The collected error list is empty exactly when every validated constraint
holds. -/
lemma validationErrors_eq_nil_iff (L B T CB : ℝ) :
    validationErrors L B T CB = [] ↔ (0 < L ∧ 0 < B ∧ 0 < T ∧ 0.3 ≤ CB ∧ CB ≤ 1.0) := by
  unfold validationErrors
  split_ifs with h1 h2 h3 h4 <;> simp_all

/-- Construction succeeds exactly when every validated constraint holds, and
the successful value is the completed record. -/
lemma create_ok_iff (L B T CB : ℝ) (CM LCB S V APP : Option ℝ) :
    (∃ hp, HullParameters.create L B T CB CM LCB S V APP = Except.ok hp) ↔
      (0 < L ∧ 0 < B ∧ 0 < T ∧ 0.3 ≤ CB ∧ CB ≤ 1.0) := by
  constructor
  · rintro ⟨hp, h⟩
    unfold HullParameters.create at h
    split at h
    · rename_i hEmpty
      rw [List.isEmpty_iff, validationErrors_eq_nil_iff] at hEmpty
      exact hEmpty
    · exact absurd h (by simp)
  · intro hcon
    have hnil : validationErrors L B T CB = [] :=
      (validationErrors_eq_nil_iff L B T CB).mpr hcon
    have hEmpty : (validationErrors L B T CB).isEmpty = true := by
      rw [List.isEmpty_iff, hnil]
    exact ⟨_, by unfold HullParameters.create; rw [if_pos hEmpty]⟩

/-- On failure, the single aggregated error carries the full collected list. -/
lemma create_error_of_violation (L B T CB : ℝ) (CM LCB S V APP : Option ℝ)
    (h : ¬ (0 < L ∧ 0 < B ∧ 0 < T ∧ 0.3 ≤ CB ∧ CB ≤ 1.0)) :
    HullParameters.create L B T CB CM LCB S V APP =
      Except.error (validationErrors L B T CB) := by
  have hne : ¬ validationErrors L B T CB = [] := by
    rw [validationErrors_eq_nil_iff]; exact h
  unfold HullParameters.create
  rw [if_neg (by rw [List.isEmpty_iff]; exact hne)]

/-- On success the object is exactly the completion of the inputs. -/
lemma create_ok_elim (L B T CB : ℝ) (CM LCB S V APP : Option ℝ)
    (hp : HullParameters)
    (h : HullParameters.create L B T CB CM LCB S V APP = Except.ok hp) :
    hp = ⟨L, B, T, CB, CM.getD 0.98, LCB.getD 0.5,
      S.getD (L * (2 * T + B) * Real.sqrt CB *
        (0.453 + 0.4425 * CB - 0.2862 * CB ^ 2 - 0.003467 * B / T + 0.3696 * CB * B / T) +
        2.38 * (V.getD (L * B * T * CB)) / CB / L),
      V.getD (L * B * T * CB), APP.getD (0.5 * Real.pi * (0.7 * T) ^ 2)⟩ := by
  unfold HullParameters.create at h
  split at h
  · exact (Except.ok.injEq _ _).mp h.symm
  · exact absurd h (by simp)

/-- The derived wetted-surface regression value is strictly positive on the
validated parameter range. -/
lemma wetted_surface_pos (L B T CB : ℝ) (hL : 0 < L) (hB : 0 < B) (hT : 0 < T)
    (hCB1 : 0.3 ≤ CB) (hCB2 : CB ≤ 1.0) :
    0 < L * (2 * T + B) * Real.sqrt CB *
      (0.453 + 0.4425 * CB - 0.2862 * CB ^ 2 - 0.003467 * B / T + 0.3696 * CB * B / T) +
      2.38 * (L * B * T * CB) / CB / L := by
  have hCB0 : 0 < CB := by linarith
  have hsqrt : 0 < Real.sqrt CB := Real.sqrt_pos.mpr hCB0
  have hBT : 0 < B / T := div_pos hB hT
  have hpoly : 0 < 0.453 + 0.4425 * CB - 0.2862 * CB ^ 2 -
      0.003467 * B / T + 0.3696 * CB * B / T := by
    have h1 : 0 < CB * (0.4425 - 0.2862 * CB) := mul_pos hCB0 (by nlinarith)
    have h2 : 0 < (B / T) * (0.3696 * CB - 0.003467) := mul_pos hBT (by nlinarith)
    have key : 0.453 + 0.4425 * CB - 0.2862 * CB ^ 2 - 0.003467 * B / T +
        0.3696 * CB * B / T =
        0.453 + CB * (0.4425 - 0.2862 * CB) + (B / T) * (0.3696 * CB - 0.003467) := by
      field_simp
      ring
    rw [key]; linarith
  have hterm1 : 0 < L * (2 * T + B) * Real.sqrt CB *
      (0.453 + 0.4425 * CB - 0.2862 * CB ^ 2 - 0.003467 * B / T + 0.3696 * CB * B / T) :=
    mul_pos (mul_pos (mul_pos hL (by linarith)) hsqrt) hpoly
  have hterm2 : 0 < 2.38 * (L * B * T * CB) / CB / L := by positivity
  linarith

/-- Unfolding lemma for the Froude-number entry. -/
lemma holtropEntry_froude (hp : HullParameters) (v : ℝ) :
    (holtropEntry hp v).froude = v / Real.sqrt (GRAVITY * hp.L) := rfl

/-- Unfolding lemma for the Reynolds-number entry. -/
lemma holtropEntry_reynolds (hp : HullParameters) (v : ℝ) :
    (holtropEntry hp v).reynolds = v * hp.L / KINEMATIC_VISCOSITY := rfl

/-- Unfolding lemma for the friction-coefficient entry. -/
lemma holtropEntry_cf (hp : HullParameters) (v : ℝ) :
    (holtropEntry hp v).cf_coefficient =
      0.075 / (Real.logb 10 (v * hp.L / KINEMATIC_VISCOSITY) - 2) ^ 2 := rfl

/-- Unfolding lemma for the frictional-resistance entry. -/
lemma holtropEntry_RF (hp : HullParameters) (v : ℝ) :
    (holtropEntry hp v).resistance_friction_N =
      0.5 * WATER_DENSITY * v ^ 2 * hp.S * (holtropEntry hp v).cf_coefficient := rfl

/-- Unfolding lemma for the residual-resistance entry. -/
lemma holtropEntry_RR (hp : HullParameters) (v : ℝ) :
    (holtropEntry hp v).residual_resistance_N =
      hp.V * WATER_DENSITY * GRAVITY *
        Real.exp (-1.89 * Real.sqrt (2223105 * (hp.B / hp.L) ^ (1.07961 : ℝ) *
          ((90 : ℝ) - 0.3) ^ (-1.37565 : ℝ))) *
        (0.56 * (hp.B * hp.T) ^ (1.5 : ℝ) /
          (hp.V * (0.31 * Real.sqrt (hp.B * hp.T) + hp.T))) *
        (hp.L ^ 3 / hp.V) ^ (0.004 : ℝ) *
        expNegQuot (v / Real.sqrt (GRAVITY * hp.L)) * (1 + 0.003 * hp.LCB) := rfl

/-- Unfolding lemma for the total-resistance entry. -/
lemma holtropEntry_RT (hp : HullParameters) (v : ℝ) :
    (holtropEntry hp v).resistance_total_N =
      (holtropEntry hp v).resistance_friction_N +
        (holtropEntry hp v).residual_resistance_N := rfl

/-- `log10` exceeds `2` beyond a Reynolds number of `100`. -/
lemma logb_gt_two_of_gt_100 (x : ℝ) (hx : 100 < x) : 2 < Real.logb 10 x := by
  have h100 : Real.logb 10 100 = 2 := by
    rw [show ((100 : ℝ) = (10 : ℝ) ^ (2 : ℝ)) from ?_,
      Real.logb_rpow (by norm_num) (by norm_num)]
    rw [show ((2 : ℝ) = ((2 : ℕ) : ℝ)) by norm_num, Real.rpow_natCast]
    norm_num
  calc (2 : ℝ) = Real.logb 10 100 := h100.symm
    _ < Real.logb 10 x := Real.logb_lt_logb (by norm_num) (by norm_num) hx

/-- The scenario hull is exactly the completion produced by construction
from `L=150, B=20, T=8, CB=0.70` with all optional fields absent. -/
lemma create_standardHull :
    HullParameters.create 150 20 8 0.7 none none none none none =
      Except.ok standardHull := by
  have hEmpty : (validationErrors 150 20 8 0.7).isEmpty = true := by
    rw [List.isEmpty_iff, validationErrors_eq_nil_iff]; norm_num
  unfold HullParameters.create standardHull
  rw [if_pos hEmpty]
  rfl

/-- The derived wetted surface of the scenario hull is positive. -/
lemma standardHull_S_pos : 0 < standardHull.S :=
  wetted_surface_pos 150 20 8 0.7 (by norm_num) (by norm_num) (by norm_num)
    (by norm_num) (by norm_num)

/-- Field values of the scenario hull. -/
lemma standardHull_L : standardHull.L = 150 := rfl

/-- Field values of the scenario hull. -/
lemma standardHull_B : standardHull.B = 20 := rfl

/-- Field values of the scenario hull. -/
lemma standardHull_T : standardHull.T = 8 := rfl

/-- Field values of the scenario hull. -/
lemma standardHull_LCB : standardHull.LCB = 0.5 := rfl

/-- The scenario hull's displaced volume evaluates to `16800`. -/
lemma standardHull_V : standardHull.V = 16800 := by
  show (150 : ℝ) * 20 * 8 * 0.7 = 16800
  norm_num

/-- The frictional resistance of the scenario hull at 7.5 m/s is positive. -/
lemma standardHull_RF_pos : 0 < (holtropEntry standardHull 7.5).resistance_friction_N := by
  rw [holtropEntry_RF, holtropEntry_cf, standardHull_L]
  unfold WATER_DENSITY KINEMATIC_VISCOSITY
  have h2 : (2 : ℝ) < Real.logb 10 ((7.5 : ℝ) * 150 / 1.1892e-6) :=
    logb_gt_two_of_gt_100 _ (by norm_num)
  have hd : (0 : ℝ) < (Real.logb 10 ((7.5 : ℝ) * 150 / 1.1892e-6) - 2) ^ 2 := by
    have h : (0 : ℝ) < Real.logb 10 ((7.5 : ℝ) * 150 / 1.1892e-6) - 2 := by linarith
    positivity
  have hcf : (0 : ℝ) < 0.075 / (Real.logb 10 ((7.5 : ℝ) * 150 / 1.1892e-6) - 2) ^ 2 :=
    div_pos (by norm_num) hd
  have hS := standardHull_S_pos
  positivity

/-- The residual resistance of the scenario hull at 7.5 m/s is positive. -/
lemma standardHull_RR_pos : 0 < (holtropEntry standardHull 7.5).residual_resistance_N := by
  rw [holtropEntry_RR, standardHull_L, standardHull_B, standardHull_T, standardHull_V,
    standardHull_LCB]
  have hFn : (7.5 : ℝ) / Real.sqrt (GRAVITY * 150) ≠ 0 := by
    have : (0 : ℝ) < 7.5 / Real.sqrt (GRAVITY * 150) := by
      unfold GRAVITY; positivity
    exact ne_of_gt this
  simp only [expNegQuot, if_neg hFn]
  unfold WATER_DENSITY GRAVITY
  positivity

/-- Unfolding lemma for the simple-method total resistance. -/
lemma simpleEntry_RT (hp : HullParameters) (v : ℝ) :
    (simpleEntry hp v).resistance_total_N =
      0.5 * WATER_DENSITY * v ^ 2 * hp.S *
        (0.001 + 0.002 * (v / Real.sqrt (GRAVITY * hp.L)) ^ 2) := rfl

/-- The IEEE-faithful exponential factor is nonnegative. -/
lemma expNegQuot_nonneg (fn : ℝ) : 0 ≤ expNegQuot fn := by
  unfold expNegQuot
  split
  · exact le_rfl
  · exact (Real.exp_pos _).le

/-- The IEEE-faithful exponential factor is monotone on positive arguments. -/
lemma expNegQuot_mono (a b : ℝ) (ha : 0 < a) (hab : a ≤ b) :
    expNegQuot a ≤ expNegQuot b := by
  have hb : 0 < b := lt_of_lt_of_le ha hab
  unfold expNegQuot
  rw [if_neg (ne_of_gt ha), if_neg (ne_of_gt hb)]
  apply Real.exp_le_exp.mpr
  rw [neg_div, neg_div, neg_le_neg_iff]
  gcongr

/-- The simple-method total resistance is non-decreasing in speed for any
hull with nonnegative wetted surface. -/
lemma simple_RT_mono (hp : HullParameters) (hS : 0 ≤ hp.S) (v1 v2 : ℝ)
    (h0 : 0 ≤ v1) (h12 : v1 ≤ v2) :
    (simpleEntry hp v1).resistance_total_N ≤ (simpleEntry hp v2).resistance_total_N := by
  rw [simpleEntry_RT, simpleEntry_RT]
  have hsq : v1 ^ 2 ≤ v2 ^ 2 := pow_le_pow_left₀ h0 h12 2
  have hfn : (v1 / Real.sqrt (GRAVITY * hp.L)) ^ 2 ≤
      (v2 / Real.sqrt (GRAVITY * hp.L)) ^ 2 := by
    rw [div_pow, div_pow]
    exact div_le_div_of_nonneg_right hsq (by positivity)
  have hfn1p : (0 : ℝ) ≤ 0.001 + 0.002 * (v1 / Real.sqrt (GRAVITY * hp.L)) ^ 2 := by
    positivity
  have key : v1 ^ 2 * (0.001 + 0.002 * (v1 / Real.sqrt (GRAVITY * hp.L)) ^ 2) ≤
      v2 ^ 2 * (0.001 + 0.002 * (v2 / Real.sqrt (GRAVITY * hp.L)) ^ 2) :=
    mul_le_mul hsq (by linarith) hfn1p (by positivity)
  have e1 : 0.5 * WATER_DENSITY * v1 ^ 2 * hp.S *
      (0.001 + 0.002 * (v1 / Real.sqrt (GRAVITY * hp.L)) ^ 2) =
      (0.5 * WATER_DENSITY * hp.S) *
        (v1 ^ 2 * (0.001 + 0.002 * (v1 / Real.sqrt (GRAVITY * hp.L)) ^ 2)) := by ring
  have e2 : 0.5 * WATER_DENSITY * v2 ^ 2 * hp.S *
      (0.001 + 0.002 * (v2 / Real.sqrt (GRAVITY * hp.L)) ^ 2) =
      (0.5 * WATER_DENSITY * hp.S) *
        (v2 ^ 2 * (0.001 + 0.002 * (v2 / Real.sqrt (GRAVITY * hp.L)) ^ 2)) := by ring
  rw [e1, e2]
  apply mul_le_mul_of_nonneg_left key
  unfold WATER_DENSITY
  positivity

/-- The Holtrop residual resistance is non-decreasing in speed on positive
speeds, for hulls with positive dimensions and volume and nonnegative LCB. -/
lemma holtrop_RR_mono (hp : HullParameters) (hL : 0 < hp.L) (hB : 0 < hp.B)
    (hT : 0 < hp.T) (hV : 0 < hp.V) (hLCB : 0 ≤ hp.LCB)
    (v1 v2 : ℝ) (hv1 : 0 < v1) (h12 : v1 ≤ v2) :
    (holtropEntry hp v1).residual_resistance_N ≤
      (holtropEntry hp v2).residual_resistance_N := by
  rw [holtropEntry_RR, holtropEntry_RR]
  have hGL : (0 : ℝ) < GRAVITY * hp.L := by unfold GRAVITY; nlinarith
  have hsq : 0 < Real.sqrt (GRAVITY * hp.L) := Real.sqrt_pos.mpr hGL
  have hFn1 : 0 < v1 / Real.sqrt (GRAVITY * hp.L) := div_pos hv1 hsq
  have hFn12 : v1 / Real.sqrt (GRAVITY * hp.L) ≤ v2 / Real.sqrt (GRAVITY * hp.L) :=
    div_le_div_of_nonneg_right h12 hsq.le
  have hE := expNegQuot_mono _ _ hFn1 hFn12
  have hA : (0 : ℝ) ≤ hp.V * WATER_DENSITY * GRAVITY *
      Real.exp (-1.89 * Real.sqrt (2223105 * (hp.B / hp.L) ^ (1.07961 : ℝ) *
        ((90 : ℝ) - 0.3) ^ (-1.37565 : ℝ))) *
      (0.56 * (hp.B * hp.T) ^ (1.5 : ℝ) /
        (hp.V * (0.31 * Real.sqrt (hp.B * hp.T) + hp.T))) *
      (hp.L ^ 3 / hp.V) ^ (0.004 : ℝ) := by
    unfold WATER_DENSITY GRAVITY
    positivity
  have hc13 : (0 : ℝ) ≤ 1 + 0.003 * hp.LCB := by nlinarith
  exact mul_le_mul_of_nonneg_right (mul_le_mul_of_nonneg_left hE hA) hc13

/-- The Holtrop frictional resistance is non-decreasing between two positive
speeds whenever the smaller speed's Reynolds number satisfies
`log10(Rn) ≥ 2 + 1/ln 10` (i.e. `Rn ≥ 100*e ≈ 271.8`). -/
lemma holtrop_RF_mono (hp : HullParameters) (hL : 0 < hp.L) (hS : 0 ≤ hp.S)
    (v1 v2 : ℝ) (hv1 : 0 < v1) (h12 : v1 ≤ v2)
    (hth : 2 + (Real.log 10)⁻¹ ≤ Real.logb 10 (v1 * hp.L / KINEMATIC_VISCOSITY)) :
    (holtropEntry hp v1).resistance_friction_N ≤
      (holtropEntry hp v2).resistance_friction_N := by
  rw [holtropEntry_RF, holtropEntry_RF, holtropEntry_cf, holtropEntry_cf]
  have hν : (0 : ℝ) < KINEMATIC_VISCOSITY := by unfold KINEMATIC_VISCOSITY; norm_num
  have hv2 : 0 < v2 := lt_of_lt_of_le hv1 h12
  have hRn1 : 0 < v1 * hp.L / KINEMATIC_VISCOSITY := by positivity
  have hRn2 : 0 < v2 * hp.L / KINEMATIC_VISCOSITY := by positivity
  have hlog10 : 0 < Real.log 10 := Real.log_pos (by norm_num)
  set d1 := Real.logb 10 (v1 * hp.L / KINEMATIC_VISCOSITY) - 2 with hd1def
  set d2 := Real.logb 10 (v2 * hp.L / KINEMATIC_VISCOSITY) - 2 with hd2def
  clear_value d1 d2
  have hd1ge : (Real.log 10)⁻¹ ≤ d1 := by rw [hd1def]; linarith [hth]
  have hd1pos : 0 < d1 := lt_of_lt_of_le (by positivity) hd1ge
  have hlogdiv : Real.log ((v2 * hp.L / KINEMATIC_VISCOSITY) /
      (v1 * hp.L / KINEMATIC_VISCOSITY)) =
      Real.log (v2 * hp.L / KINEMATIC_VISCOSITY) -
        Real.log (v1 * hp.L / KINEMATIC_VISCOSITY) :=
    Real.log_div (ne_of_gt hRn2) (ne_of_gt hRn1)
  have hratio : (v2 * hp.L / KINEMATIC_VISCOSITY) / (v1 * hp.L / KINEMATIC_VISCOSITY) =
      v2 / v1 := by
    field_simp
    ring
  rw [hratio] at hlogdiv
  have hkey : d2 - d1 = Real.log (v2 / v1) / Real.log 10 := by
    rw [hd1def, hd2def]
    simp only [Real.logb]
    rw [hlogdiv]
    ring
  have ht1 : (1 : ℝ) ≤ v2 / v1 := (one_le_div hv1).mpr h12
  have hlogt0 : 0 ≤ Real.log (v2 / v1) := Real.log_nonneg ht1
  have hd2ge : d1 ≤ d2 := by
    have : 0 ≤ Real.log (v2 / v1) / Real.log 10 := by positivity
    linarith [hkey]
  have hd2pos : 0 < d2 := lt_of_lt_of_le hd1pos hd2ge
  have hlogt : Real.log (v2 / v1) ≤ v2 / v1 - 1 :=
    Real.log_le_sub_one_of_pos (by positivity)
  have hmain : v1 * d2 ≤ v2 * d1 := by
    have h1 : v1 * d2 = v1 * d1 + v1 * (Real.log (v2 / v1) / Real.log 10) := by
      have hd2eq : d2 = d1 + Real.log (v2 / v1) / Real.log 10 := by linarith [hkey]
      rw [hd2eq]; ring
    have hv1logt : v1 * Real.log (v2 / v1) ≤ v2 - v1 := by
      have hmul := mul_le_mul_of_nonneg_left hlogt hv1.le
      have heq : v1 * (v2 / v1 - 1) = v2 - v1 := by field_simp
      linarith
    have h2 : v1 * (Real.log (v2 / v1) / Real.log 10) ≤ (v2 - v1) * (Real.log 10)⁻¹ := by
      have e : v1 * (Real.log (v2 / v1) / Real.log 10) =
          (v1 * Real.log (v2 / v1)) * (Real.log 10)⁻¹ := by ring
      rw [e]
      exact mul_le_mul_of_nonneg_right hv1logt (by positivity)
    have h3 : (v2 - v1) * (Real.log 10)⁻¹ ≤ (v2 - v1) * d1 :=
      mul_le_mul_of_nonneg_left hd1ge (by linarith)
    nlinarith [h1, h2, h3]
  have hdiv : v1 / d1 ≤ v2 / d2 :=
    (div_le_div_iff hd1pos hd2pos).mpr (by nlinarith [hmain])
  have hsq2 : (v1 / d1) ^ 2 ≤ (v2 / d2) ^ 2 :=
    pow_le_pow_left₀ (by positivity) hdiv 2
  have e1 : 0.5 * WATER_DENSITY * v1 ^ 2 * hp.S * (0.075 / d1 ^ 2) =
      (0.5 * WATER_DENSITY * hp.S * 0.075) * (v1 / d1) ^ 2 := by
    rw [div_pow]; ring
  have e2 : 0.5 * WATER_DENSITY * v2 ^ 2 * hp.S * (0.075 / d2 ^ 2) =
      (0.5 * WATER_DENSITY * hp.S * 0.075) * (v2 / d2) ^ 2 := by
    rw [div_pow]; ring
  rw [e1, e2]
  apply mul_le_mul_of_nonneg_left hsq2
  unfold WATER_DENSITY
  positivity

/-! ## Claim theorems -/

/-- C1: for every hull with valid `L`, `B`, `T`, `CB` and every speed
sequence, `calculate_holtrop` returns, elementwise per speed `v`, exactly the
stated formulas (`Fn`, `Rn`, `CF`, `RF`, the residual-resistance regression
with `c1` based on `89.7 = 90 - 0.3`, `RT = RF + RR`, `kN`, power and knots
conversions); the `RR` formula with the factor `exp(-0.9/Fn)` is stated for
nonzero speeds, where the quotient is defined.  For the concrete scenario
(L=150, B=20, T=8, CB=0.70 auto-derived, speed 7.5 m/s): `V = 16800`,
`Fn = 7.5/sqrt(9.81*150)`, and `RT`, `RF`, `RR` are strictly positive with
`RT = RF + RR` exactly. -/
theorem holtrop_formula_correctness (hp : HullParameters)
    (hL : 0 < hp.L) (hB : 0 < hp.B) (hT : 0 < hp.T)
    (hCB1 : 0.3 ≤ hp.CB) (hCB2 : hp.CB ≤ 1.0) (speeds : List ℝ) :
    (∀ c : ResistanceCalculator, c.hull = hp →
      (c.calculate_holtrop speeds).1 = ResultSet.holtrop (speeds.map (holtropEntry hp))) ∧
    (∀ v ∈ speeds,
      (holtropEntry hp v).froude = v / Real.sqrt (9.81 * hp.L) ∧
      (holtropEntry hp v).reynolds = v * hp.L / 1.1892e-6 ∧
      (holtropEntry hp v).cf_coefficient =
        0.075 / (Real.logb 10 (v * hp.L / 1.1892e-6) - 2) ^ 2 ∧
      (holtropEntry hp v).resistance_friction_N =
        0.5 * 1025 * v ^ 2 * hp.S * (holtropEntry hp v).cf_coefficient ∧
      (v ≠ 0 → (holtropEntry hp v).residual_resistance_N =
        hp.V * 1025 * 9.81 *
          Real.exp (-1.89 * Real.sqrt (2223105 * (hp.B / hp.L) ^ (1.07961 : ℝ) *
            (89.7 : ℝ) ^ (-1.37565 : ℝ))) *
          (0.56 * (hp.B * hp.T) ^ (1.5 : ℝ) /
            (hp.V * (0.31 * Real.sqrt (hp.B * hp.T) + hp.T))) *
          (hp.L ^ 3 / hp.V) ^ (0.004 : ℝ) *
          Real.exp (-0.9 / (v / Real.sqrt (9.81 * hp.L))) * (1 + 0.003 * hp.LCB)) ∧
      (holtropEntry hp v).resistance_total_N =
        (holtropEntry hp v).resistance_friction_N +
          (holtropEntry hp v).residual_resistance_N ∧
      (holtropEntry hp v).resistance_total_kN =
        (holtropEntry hp v).resistance_total_N / 1000 ∧
      (holtropEntry hp v).effective_power_kW =
        (holtropEntry hp v).resistance_total_N * v / 1000 ∧
      (holtropEntry hp v).speed_knots = v * 1.944) ∧
    (HullParameters.create 150 20 8 0.7 none none none none none =
        Except.ok standardHull ∧
      standardHull.V = 16800 ∧
      (holtropEntry standardHull 7.5).froude = 7.5 / Real.sqrt (9.81 * 150) ∧
      0 < (holtropEntry standardHull 7.5).resistance_friction_N ∧
      0 < (holtropEntry standardHull 7.5).residual_resistance_N ∧
      0 < (holtropEntry standardHull 7.5).resistance_total_N ∧
      (holtropEntry standardHull 7.5).resistance_total_N =
        (holtropEntry standardHull 7.5).resistance_friction_N +
          (holtropEntry standardHull 7.5).residual_resistance_N) := by
  refine ⟨?_, ?_, create_standardHull, standardHull_V, rfl, standardHull_RF_pos,
    standardHull_RR_pos, ?_, holtropEntry_RT standardHull 7.5⟩
  · rintro c rfl; rfl
  · intro v _
    refine ⟨rfl, rfl, rfl, rfl, ?_, rfl, rfl, rfl, rfl⟩
    intro hv
    rw [holtropEntry_RR]
    have hFn : v / Real.sqrt (GRAVITY * hp.L) ≠ 0 := by
      refine div_ne_zero hv (ne_of_gt (Real.sqrt_pos.mpr ?_))
      unfold GRAVITY; nlinarith
    simp only [expNegQuot, if_neg hFn]
    norm_num [WATER_DENSITY, GRAVITY]
  · rw [holtropEntry_RT]
    have := standardHull_RF_pos
    have := standardHull_RR_pos
    linarith

/-- Witness for C1: instantiated at the concrete scenario hull and speed
list `[7.5]`, with all hypotheses discharged. -/
theorem holtrop_formula_correctness_witness :
    ((holtropEntry standardHull 7.5).froude = 7.5 / Real.sqrt (9.81 * standardHull.L) ∧
      (holtropEntry standardHull 7.5).reynolds = 7.5 * standardHull.L / 1.1892e-6 ∧
      (holtropEntry standardHull 7.5).speed_knots = 7.5 * 1.944) ∧
    (standardHull.V = 16800 ∧
      0 < (holtropEntry standardHull 7.5).resistance_total_N) := by
  have h := holtrop_formula_correctness standardHull (by norm_num [standardHull])
    (by norm_num [standardHull]) (by norm_num [standardHull])
    (by norm_num [standardHull]) (by norm_num [standardHull]) [7.5]
  obtain ⟨e1, e2, e3, e4, e5, e6, e7, e8, e9⟩ := h.2.1 7.5 (by norm_num)
  exact ⟨⟨e1, e2, e9⟩, h.2.2.2.1, h.2.2.2.2.2.2.2.1⟩

/-- C3: for every valid input with the optional fields absent, construction
completes them as `V = L*B*T*CB` (computed first), then `S` by the wetted
surface regression using that `V`, then `CM = 0.98`, `LCB = 0.5`, and
`APP = 0.5*pi*(0.7*T)^2`; the derived `S` is strictly positive. -/
theorem derived_parameters (L B T CB : ℝ) (hL : 0 < L) (hB : 0 < B) (hT : 0 < T)
    (hCB1 : 0.3 ≤ CB) (hCB2 : CB ≤ 1.0) :
    ∃ hp, HullParameters.create L B T CB none none none none none = Except.ok hp ∧
      hp.V = L * B * T * CB ∧
      hp.S = L * (2 * T + B) * Real.sqrt CB *
        (0.453 + 0.4425 * CB - 0.2862 * CB ^ 2 - 0.003467 * B / T + 0.3696 * CB * B / T) +
        2.38 * (L * B * T * CB) / CB / L ∧
      hp.CM = 0.98 ∧ hp.LCB = 0.5 ∧ hp.APP = 0.5 * Real.pi * (0.7 * T) ^ 2 ∧
      0 < hp.S := by
  obtain ⟨hp, hhp⟩ :=
    (create_ok_iff L B T CB none none none none none).mpr ⟨hL, hB, hT, hCB1, hCB2⟩
  have he := create_ok_elim L B T CB none none none none none hp hhp
  subst he
  refine ⟨_, hhp, rfl, rfl, rfl, rfl, rfl, ?_⟩
  exact wetted_surface_pos L B T CB hL hB hT hCB1 hCB2

/-- Witness for C3: the derivation at the concrete hull L=150, B=20, T=8,
CB=0.70. -/
theorem derived_parameters_witness :
    ∃ hp, HullParameters.create 150 20 8 0.7 none none none none none = Except.ok hp ∧
      hp.V = 150 * 20 * 8 * 0.7 ∧
      hp.S = 150 * (2 * 8 + 20) * Real.sqrt 0.7 *
        (0.453 + 0.4425 * 0.7 - 0.2862 * 0.7 ^ 2 - 0.003467 * 20 / 8 + 0.3696 * 0.7 * 20 / 8) +
        2.38 * (150 * 20 * 8 * 0.7) / 0.7 / 150 ∧
      hp.CM = 0.98 ∧ hp.LCB = 0.5 ∧ hp.APP = 0.5 * Real.pi * (0.7 * 8) ^ 2 ∧
      0 < hp.S :=
  derived_parameters 150 20 8 0.7 (by norm_num) (by norm_num) (by norm_num)
    (by norm_num) (by norm_num)

/-- C4: `calculate_simple` returns, elementwise per speed `v`:
`Fn = v/sqrt(9.81*L)`, `RT = 0.5*1025*v^2*S*(0.001+0.002*Fn^2)`,
`P = RT*v/1000`, and `speed_knots = v*1.944` exactly; at speed exactly `0`
it yields `Fn = 0`, `RT = 0` and `P = 0`. -/
theorem simple_method_formulas (hp : HullParameters) (hL : 0 < hp.L) (hB : 0 < hp.B)
    (hT : 0 < hp.T) (hCB1 : 0.3 ≤ hp.CB) (hCB2 : hp.CB ≤ 1.0) (speeds : List ℝ) :
    (∀ c : ResistanceCalculator, c.hull = hp →
      (c.calculate_simple speeds).1 = ResultSet.simple (speeds.map (simpleEntry hp))) ∧
    (∀ v ∈ speeds,
      (simpleEntry hp v).froude = v / Real.sqrt (9.81 * hp.L) ∧
      (simpleEntry hp v).resistance_total_N =
        0.5 * 1025 * v ^ 2 * hp.S * (0.001 + 0.002 * (v / Real.sqrt (9.81 * hp.L)) ^ 2) ∧
      (simpleEntry hp v).effective_power_kW =
        (simpleEntry hp v).resistance_total_N * v / 1000 ∧
      (simpleEntry hp v).speed_knots = v * 1.944) ∧
    ((simpleEntry hp 0).froude = 0 ∧ (simpleEntry hp 0).resistance_total_N = 0 ∧
      (simpleEntry hp 0).effective_power_kW = 0) := by
  refine ⟨?_, ?_, ?_, ?_, ?_⟩
  · rintro c rfl; rfl
  · intro v _
    exact ⟨rfl, rfl, rfl, rfl⟩
  · simp [simpleEntry]
  · simp [simpleEntry]
  · simp [simpleEntry]

/-- Witness for C4: instantiated at the concrete scenario hull and the
speed list `[0, 7.5]`. -/
theorem simple_method_formulas_witness :
    ((simpleEntry standardHull 7.5).froude = 7.5 / Real.sqrt (9.81 * standardHull.L) ∧
      (simpleEntry standardHull 7.5).resistance_total_N =
        0.5 * 1025 * 7.5 ^ 2 * standardHull.S *
          (0.001 + 0.002 * (7.5 / Real.sqrt (9.81 * standardHull.L)) ^ 2) ∧
      (simpleEntry standardHull 7.5).effective_power_kW =
        (simpleEntry standardHull 7.5).resistance_total_N * 7.5 / 1000 ∧
      (simpleEntry standardHull 7.5).speed_knots = 7.5 * 1.944) ∧
    ((simpleEntry standardHull 0).froude = 0 ∧
      (simpleEntry standardHull 0).resistance_total_N = 0 ∧
      (simpleEntry standardHull 0).effective_power_kW = 0) :=
  ⟨(simple_method_formulas standardHull (by norm_num [standardHull])
      (by norm_num [standardHull]) (by norm_num [standardHull])
      (by norm_num [standardHull]) (by norm_num [standardHull]) [0, 7.5]).2.1
      7.5 (by norm_num),
   (simple_method_formulas standardHull (by norm_num [standardHull])
      (by norm_num [standardHull]) (by norm_num [standardHull])
      (by norm_num [standardHull]) (by norm_num [standardHull]) [0, 7.5]).2.2⟩

/-- C5: the residual-resistance entry of `calculate_holtrop` at an input
speed of exactly `0` is `0`: the exponential factor there is the IEEE value
`exp(-inf) = 0` (see `expNegQuot`), so the zero-speed entry is a
well-defined zero rather than a garbage value.  Stated for every hull and
every speed list containing a zero speed. -/
theorem zero_speed_residual (hp : HullParameters) :
    (holtropEntry hp 0).residual_resistance_N = 0 ∧
    ∀ speeds : List ℝ, ∀ e ∈ speeds.map (holtropEntry hp), e.speed_mps = 0 →
      e.residual_resistance_N = 0 := by
  have base : ∀ v : ℝ, v = 0 → (holtropEntry hp v).residual_resistance_N = 0 := by
    rintro v rfl
    simp [holtropEntry, expNegQuot]
  refine ⟨base 0 rfl, ?_⟩
  intro speeds e he hspeed
  obtain ⟨v, _, rfl⟩ := List.mem_map.mp he
  exact base v hspeed

/-- Witness for C5: the zero-speed entry of the concrete scenario hull,
obtained from the list-level part of the theorem with its hypotheses
discharged. -/
theorem zero_speed_residual_witness :
    (holtropEntry standardHull 0).residual_resistance_N = 0 :=
  (zero_speed_residual standardHull).2 [0] (holtropEntry standardHull 0)
    (by simp) rfl

/-- C7: the engine is a two-state machine: freshly constructed it holds no
result; `export_results`, `plot_results` and `print_summary` on an empty
engine fail with the no-result error for every argument; and each compute
call (either method) replaces the stored result entirely with the result of
the new computation, independent of any previously stored result. -/
theorem engine_state_machine :
    (∀ hp, (ResistanceCalculator.init hp).results = none) ∧
    (∀ c : ResistanceCalculator, c.results = none →
      (∀ fn, c.export_results fn = Except.error CalcError.noResult) ∧
      (∀ sp lang, c.plot_results sp lang = Except.error CalcError.noResult) ∧
      (∀ lang, c.print_summary lang = Except.error CalcError.noResult)) ∧
    (∀ c : ResistanceCalculator, ∀ speeds : List ℝ,
      (c.calculate_holtrop speeds).2.results =
        some (ResultSet.holtrop (speeds.map (holtropEntry c.hull))) ∧
      (c.calculate_simple speeds).2.results =
        some (ResultSet.simple (speeds.map (simpleEntry c.hull))) ∧
      (c.calculate_holtrop speeds).1 =
        ResultSet.holtrop (speeds.map (holtropEntry c.hull)) ∧
      (c.calculate_simple speeds).1 =
        ResultSet.simple (speeds.map (simpleEntry c.hull)) ∧
      (c.calculate_holtrop speeds).2.hull = c.hull ∧
      (c.calculate_simple speeds).2.hull = c.hull) := by
  refine ⟨fun hp => rfl, ?_, fun c speeds => ⟨rfl, rfl, rfl, rfl, rfl, rfl⟩⟩
  intro c hc
  refine ⟨fun fn => ?_, fun sp lang => ?_, fun lang => ?_⟩ <;>
    simp [ResistanceCalculator.export_results, ResistanceCalculator.plot_results,
      ResistanceCalculator.print_summary, hc]

/-- Witness for C7: the empty-state failures on a freshly constructed engine
over the concrete scenario hull. -/
theorem engine_state_machine_witness :
    (ResistanceCalculator.init standardHull).export_results none =
      Except.error CalcError.noResult ∧
    (ResistanceCalculator.init standardHull).plot_results none (some "english") =
      Except.error CalcError.noResult ∧
    (ResistanceCalculator.init standardHull).print_summary (some "portuguese") =
      Except.error CalcError.noResult :=
  ⟨(engine_state_machine.2.1 (ResistanceCalculator.init standardHull) rfl).1 none,
   (engine_state_machine.2.1 (ResistanceCalculator.init standardHull) rfl).2.1
      none (some "english"),
   (engine_state_machine.2.1 (ResistanceCalculator.init standardHull) rfl).2.2
      (some "portuguese")⟩

/-- C6 counterexample: at the concrete speed `rn100Speed` the Reynolds
number of the scenario hull is exactly `100`, so the friction-coefficient
denominator `log10(Rn) - 2` is exactly zero -- and yet `calculate_holtrop`
succeeds (it contains no guard and no raise), and it also succeeds on a
negative speed.  This refutes the claim that the method reports a
numeric-domain error in these cases. -/
theorem no_domain_error_counterexample :
    (holtropEntry standardHull rn100Speed).reynolds = 100 ∧
    Real.logb 10 (holtropEntry standardHull rn100Speed).reynolds - 2 = 0 ∧
    (ResistanceCalculator.init standardHull).calculate_holtropE [rn100Speed] =
      Except.ok ((ResistanceCalculator.init standardHull).calculate_holtrop
        [rn100Speed]) ∧
    (ResistanceCalculator.init standardHull).calculate_holtropE [-1] =
      Except.ok ((ResistanceCalculator.init standardHull).calculate_holtrop [-1]) := by
  have hrn : (holtropEntry standardHull rn100Speed).reynolds = 100 := by
    show rn100Speed * standardHull.L / KINEMATIC_VISCOSITY = 100
    rw [rn100Speed, KINEMATIC_VISCOSITY, standardHull]
    norm_num
  refine ⟨hrn, ?_, rfl, rfl⟩
  rw [hrn]
  have h100 : (100 : ℝ) = (10 : ℝ) ^ (2 : ℝ) := by
    rw [show ((2 : ℝ) = ((2 : ℕ) : ℝ)) by norm_num, Real.rpow_natCast]
    norm_num
  rw [h100, Real.logb_rpow (by norm_num) (by norm_num)]
  norm_num

/-- C6 amended: `calculate_holtrop` performs no numeric-domain check at all:
for every engine and every speed list (including speeds that drive `Rn` to
exactly `100`, and negative speeds) it returns a result and never reports an
error; guarding is entirely the caller's responsibility. -/
theorem holtrop_never_raises (c : ResistanceCalculator) (speeds : List ℝ) :
    c.calculate_holtropE speeds = Except.ok (c.calculate_holtrop speeds) :=
  rfl

/-- Numeric bound used in the monotonicity counterexample. -/
lemma sqrt10_gt : (3.16 : ℝ) < Real.sqrt 10 :=
  (Real.lt_sqrt (by norm_num)).mpr (by norm_num)

/-- Numeric bound used in the monotonicity counterexample. -/
lemma sqrt160_lt : Real.sqrt 160 < 12.65 :=
  (Real.sqrt_lt' (by norm_num)).mpr (by norm_num)

/-- Numeric bound used in the monotonicity counterexample. -/
lemma sqrtG_ge : (38 : ℝ) ≤ Real.sqrt (9.81 * 150) :=
  (Real.le_sqrt' (by norm_num)).mpr (by norm_num)

/-- An elementary cubic tail bound for the exponential. -/
lemma exp_neg_le_27_div_cube (x : ℝ) (hx : 0 < x) : Real.exp (-x) ≤ 27 / x ^ 3 := by
  have h1 : x / 3 + 1 ≤ Real.exp (x / 3) := Real.add_one_le_exp (x / 3)
  have h4 : Real.exp (x / 3) ^ (3 : ℕ) = Real.exp x := by
    rw [← Real.exp_nat_mul]
    ring_nf
  have h5 : x ^ 3 / 27 ≤ Real.exp x := by
    rw [← h4]
    have h2 : (x / 3) ^ (3 : ℕ) ≤ (x / 3 + 1) ^ (3 : ℕ) :=
      pow_le_pow_left₀ (by positivity) (by linarith) 3
    have h3 : (x / 3 + 1) ^ (3 : ℕ) ≤ Real.exp (x / 3) ^ (3 : ℕ) :=
      pow_le_pow_left₀ (by positivity) h1 3
    have he : (x / 3 : ℝ) ^ (3 : ℕ) = x ^ 3 / 27 := by ring
    linarith
  have hxp : (0 : ℝ) < x ^ 3 / 27 := by positivity
  calc Real.exp (-x) = (Real.exp x)⁻¹ := Real.exp_neg x
    _ ≤ (x ^ 3 / 27)⁻¹ := inv_anti₀ hxp h5
    _ = 27 / x ^ 3 := by field_simp

/-- Exact square of the first counterexample Reynolds number. -/
lemma rpow_94_sq : ((10 : ℝ) ^ ((9 : ℝ) / 4)) ^ (2 : ℕ) = 10000 * Real.sqrt 10 := by
  rw [← Real.rpow_natCast ((10 : ℝ) ^ ((9 : ℝ) / 4)) 2,
    ← Real.rpow_mul (by norm_num : (0 : ℝ) ≤ 10)]
  rw [show ((9 : ℝ) / 4 * ((2 : ℕ) : ℝ) = 4 + 1 / 2) by norm_num]
  rw [Real.rpow_add (by norm_num : (0 : ℝ) < 10), Real.sqrt_eq_rpow]
  rw [show ((4 : ℝ) = ((4 : ℕ) : ℝ)) by norm_num, Real.rpow_natCast]
  norm_num

/-- Exact square of the second counterexample Reynolds number. -/
lemma rpow_52_sq : ((10 : ℝ) ^ ((5 : ℝ) / 2)) ^ (2 : ℕ) = 100000 := by
  rw [← Real.rpow_natCast ((10 : ℝ) ^ ((5 : ℝ) / 2)) 2,
    ← Real.rpow_mul (by norm_num : (0 : ℝ) ≤ 10)]
  rw [show ((5 : ℝ) / 2 * ((2 : ℕ) : ℝ) = ((5 : ℕ) : ℝ)) by norm_num, Real.rpow_natCast]
  norm_num

/-- Upper bound on the second counterexample Reynolds number. -/
lemma b2_lt : (10 : ℝ) ^ ((5 : ℝ) / 2) < 317 := by
  have hnn : (0 : ℝ) ≤ (10 : ℝ) ^ ((5 : ℝ) / 2) := Real.rpow_nonneg (by norm_num) _
  nlinarith [rpow_52_sq]

/-- The two counterexample Reynolds numbers are ordered. -/
lemma b1_le_b2 : (10 : ℝ) ^ ((9 : ℝ) / 4) ≤ (10 : ℝ) ^ ((5 : ℝ) / 2) :=
  Real.rpow_le_rpow_of_exponent_le (by norm_num) (by norm_num)

/-- Lower numeric bound on the scenario hull's derived wetted surface. -/
lemma standardHull_S_gt : (6000 : ℝ) < standardHull.S := by
  have h7 : (0.836 : ℝ) < Real.sqrt 0.7 := (Real.lt_sqrt (by norm_num)).mpr (by norm_num)
  show (6000 : ℝ) < 150 * (2 * 8 + 20) * Real.sqrt 0.7 *
      (0.453 + 0.4425 * 0.7 - 0.2862 * 0.7 ^ 2 - 0.003467 * 20 / 8 + 0.3696 * 0.7 * 20 / 8) +
      2.38 * (150 * 20 * 8 * 0.7) / 0.7 / 150
  nlinarith [h7]

/-- The friction coefficient at the first counterexample speed is exactly
`1.2` (its Reynolds number is `10^(9/4)`). -/
lemma cex_CF1 : (holtropEntry standardHull cexSpeed1).cf_coefficient = 1.2 := by
  rw [holtropEntry_cf, standardHull_L]
  have hrn : cexSpeed1 * 150 / KINEMATIC_VISCOSITY = (10 : ℝ) ^ ((9 : ℝ) / 4) := by
    rw [cexSpeed1]
    unfold KINEMATIC_VISCOSITY
    field_simp
  rw [hrn, Real.logb_rpow (by norm_num) (by norm_num)]
  norm_num

/-- The friction coefficient at the second counterexample speed is exactly
`0.3` (its Reynolds number is `10^(5/2)`). -/
lemma cex_CF2 : (holtropEntry standardHull cexSpeed2).cf_coefficient = 0.3 := by
  rw [holtropEntry_cf, standardHull_L]
  have hrn : cexSpeed2 * 150 / KINEMATIC_VISCOSITY = (10 : ℝ) ^ ((5 : ℝ) / 2) := by
    rw [cexSpeed2]
    unfold KINEMATIC_VISCOSITY
    field_simp
  rw [hrn, Real.logb_rpow (by norm_num) (by norm_num)]
  norm_num

/-- Frictional resistance at the first counterexample speed. -/
lemma cex_RF1 : (holtropEntry standardHull cexSpeed1).resistance_friction_N =
    0.5 * 1025 * cexSpeed1 ^ 2 * standardHull.S * 1.2 := by
  rw [holtropEntry_RF, cex_CF1]
  norm_num [WATER_DENSITY]

/-- Frictional resistance at the second counterexample speed. -/
lemma cex_RF2 : (holtropEntry standardHull cexSpeed2).resistance_friction_N =
    0.5 * 1025 * cexSpeed2 ^ 2 * standardHull.S * 0.3 := by
  rw [holtropEntry_RF, cex_CF2]
  norm_num [WATER_DENSITY]

/-- Exact square of the first counterexample speed. -/
lemma cexSpeed1_sq : cexSpeed1 ^ 2 =
    10000 * Real.sqrt 10 * (KINEMATIC_VISCOSITY / 150) ^ 2 := by
  rw [cexSpeed1, mul_div_assoc, mul_pow, rpow_94_sq]

/-- Exact square of the second counterexample speed. -/
lemma cexSpeed2_sq : cexSpeed2 ^ 2 = 100000 * (KINEMATIC_VISCOSITY / 150) ^ 2 := by
  rw [cexSpeed2, mul_div_assoc, mul_pow, rpow_52_sq]

/-- The residual resistance at the first counterexample speed is
nonnegative. -/
lemma cex_RR1_nonneg : 0 ≤ (holtropEntry standardHull cexSpeed1).residual_resistance_N := by
  rw [holtropEntry_RR, standardHull_L, standardHull_B, standardHull_T, standardHull_V,
    standardHull_LCB]
  unfold WATER_DENSITY GRAVITY
  have hE := expNegQuot_nonneg (cexSpeed1 / Real.sqrt (9.81 * 150))
  apply mul_nonneg (mul_nonneg (by positivity) hE) (by norm_num)

/-- The second counterexample speed is positive. -/
lemma cexSpeed2_pos : 0 < cexSpeed2 := by
  rw [cexSpeed2]
  unfold KINEMATIC_VISCOSITY
  positivity

/-- Upper bound on the second counterexample speed. -/
lemma cexSpeed2_lt : cexSpeed2 < 2.514e-6 := by
  rw [cexSpeed2]
  unfold KINEMATIC_VISCOSITY
  nlinarith [b2_lt]

/-- The Froude number at the second counterexample speed is tiny. -/
lemma cex_Fn2_lt : cexSpeed2 / Real.sqrt (9.81 * 150) < 6.62e-8 := by
  have h38 : (0 : ℝ) < 38 := by norm_num
  have h1 : cexSpeed2 / Real.sqrt (9.81 * 150) ≤ cexSpeed2 / 38 := by
    gcongr
    · exact cexSpeed2_pos.le
    · exact sqrtG_ge
  have h2 : cexSpeed2 / 38 < 6.62e-8 := by
    rw [div_lt_iff h38]
    nlinarith [cexSpeed2_lt]
  linarith

/-- The residual resistance at the second counterexample speed is at most
`1e-8` newtons: the exponential factor `exp(-0.9/Fn)` collapses to below
`1.1e-20` at this tiny Froude number, and every regression constant is
bounded above by elementary estimates. -/
lemma cex_RR2_le : (holtropEntry standardHull cexSpeed2).residual_resistance_N ≤ 1e-8 := by
  rw [holtropEntry_RR, standardHull_L, standardHull_B, standardHull_T, standardHull_V,
    standardHull_LCB]
  unfold WATER_DENSITY GRAVITY
  have hFnpos : 0 < cexSpeed2 / Real.sqrt (9.81 * 150) :=
    div_pos cexSpeed2_pos (lt_of_lt_of_le (by norm_num) sqrtG_ge)
  have hx : (1.35e7 : ℝ) ≤ 0.9 / (cexSpeed2 / Real.sqrt (9.81 * 150)) := by
    rw [le_div_iff hFnpos]
    nlinarith [cex_Fn2_lt, hFnpos]
  have hE : expNegQuot (cexSpeed2 / Real.sqrt (9.81 * 150)) ≤ 1.1e-20 := by
    unfold expNegQuot
    rw [if_neg (ne_of_gt hFnpos), neg_div]
    calc Real.exp (-(0.9 / (cexSpeed2 / Real.sqrt (9.81 * 150)))) ≤
        27 / (0.9 / (cexSpeed2 / Real.sqrt (9.81 * 150))) ^ 3 :=
          exp_neg_le_27_div_cube _ (by positivity)
      _ ≤ 27 / (1.35e7 : ℝ) ^ 3 := by gcongr
      _ ≤ 1.1e-20 := by norm_num
  have hEnn : 0 ≤ expNegQuot (cexSpeed2 / Real.sqrt (9.81 * 150)) := expNegQuot_nonneg _
  have hc2 : Real.exp (-1.89 * Real.sqrt (2223105 * ((20 : ℝ) / 150) ^ (1.07961 : ℝ) *
      ((90 : ℝ) - 0.3) ^ (-1.37565 : ℝ))) ≤ 1 := by
    apply Real.exp_le_one_iff.mpr
    have hnn := Real.sqrt_nonneg (2223105 * ((20 : ℝ) / 150) ^ (1.07961 : ℝ) *
      ((90 : ℝ) - 0.3) ^ (-1.37565 : ℝ))
    nlinarith
  have hc3 : 0.56 * ((20 : ℝ) * 8) ^ (1.5 : ℝ) /
      (16800 * (0.31 * Real.sqrt ((20 : ℝ) * 8) + 8)) ≤ 0.009 := by
    have h1p5 : ((20 : ℝ) * 8) ^ (1.5 : ℝ) = 160 * Real.sqrt 160 := by
      rw [show ((20 : ℝ) * 8 = 160) by norm_num, show ((1.5 : ℝ) = 1 + 1 / 2) by norm_num,
        Real.rpow_add (by norm_num), Real.rpow_one, Real.sqrt_eq_rpow]
    rw [h1p5, show ((20 : ℝ) * 8 = 160) by norm_num, div_le_iff (by positivity)]
    have hlt := sqrt160_lt
    have hnn := Real.sqrt_nonneg (160 : ℝ)
    nlinarith
  have hc3nn : 0 ≤ 0.56 * ((20 : ℝ) * 8) ^ (1.5 : ℝ) /
      (16800 * (0.31 * Real.sqrt ((20 : ℝ) * 8) + 8)) := by positivity
  have hc12 : (((150 : ℝ) ^ 3) / 16800) ^ (0.004 : ℝ) ≤ 201 := by
    calc (((150 : ℝ) ^ 3) / 16800) ^ (0.004 : ℝ) ≤
        (((150 : ℝ) ^ 3) / 16800) ^ (1 : ℝ) :=
          Real.rpow_le_rpow_of_exponent_le (by norm_num) (by norm_num)
      _ = ((150 : ℝ) ^ 3) / 16800 := Real.rpow_one _
      _ ≤ 201 := by norm_num
  have hc12nn : 0 ≤ (((150 : ℝ) ^ 3) / 16800) ^ (0.004 : ℝ) :=
    Real.rpow_nonneg (by norm_num) _
  have s1 : (16800 : ℝ) * 1025 * 9.81 *
      Real.exp (-1.89 * Real.sqrt (2223105 * ((20 : ℝ) / 150) ^ (1.07961 : ℝ) *
        ((90 : ℝ) - 0.3) ^ (-1.37565 : ℝ))) ≤ 16800 * 1025 * 9.81 :=
    mul_le_of_le_one_right (by norm_num) hc2
  have s2 : (16800 : ℝ) * 1025 * 9.81 *
      Real.exp (-1.89 * Real.sqrt (2223105 * ((20 : ℝ) / 150) ^ (1.07961 : ℝ) *
        ((90 : ℝ) - 0.3) ^ (-1.37565 : ℝ))) *
      (0.56 * ((20 : ℝ) * 8) ^ (1.5 : ℝ) /
        (16800 * (0.31 * Real.sqrt ((20 : ℝ) * 8) + 8))) ≤
      16800 * 1025 * 9.81 * 0.009 := by
    calc (16800 : ℝ) * 1025 * 9.81 *
        Real.exp (-1.89 * Real.sqrt (2223105 * ((20 : ℝ) / 150) ^ (1.07961 : ℝ) *
          ((90 : ℝ) - 0.3) ^ (-1.37565 : ℝ))) *
        (0.56 * ((20 : ℝ) * 8) ^ (1.5 : ℝ) /
          (16800 * (0.31 * Real.sqrt ((20 : ℝ) * 8) + 8))) ≤
        16800 * 1025 * 9.81 *
          (0.56 * ((20 : ℝ) * 8) ^ (1.5 : ℝ) /
            (16800 * (0.31 * Real.sqrt ((20 : ℝ) * 8) + 8))) :=
          mul_le_mul_of_nonneg_right s1 hc3nn
      _ ≤ 16800 * 1025 * 9.81 * 0.009 :=
          mul_le_mul_of_nonneg_left hc3 (by norm_num)
  have s3 := mul_le_mul s2 hc12 hc12nn (by norm_num)
  have s4 := mul_le_mul s3 hE hEnn (by norm_num)
  have s5 := mul_le_mul s4 (show (1 : ℝ) + 0.003 * 0.5 ≤ 1.002 by norm_num)
    (by norm_num) (by norm_num)
  calc (16800 : ℝ) * 1025 * 9.81 *
      Real.exp (-1.89 * Real.sqrt (2223105 * ((20 : ℝ) / 150) ^ (1.07961 : ℝ) *
        ((90 : ℝ) - 0.3) ^ (-1.37565 : ℝ))) *
      (0.56 * ((20 : ℝ) * 8) ^ (1.5 : ℝ) /
        (16800 * (0.31 * Real.sqrt ((20 : ℝ) * 8) + 8))) *
      (((150 : ℝ) ^ 3) / 16800) ^ (0.004 : ℝ) *
      expNegQuot (cexSpeed2 / Real.sqrt (9.81 * 150)) * (1 + 0.003 * 0.5) ≤
      16800 * 1025 * 9.81 * 0.009 * 201 * 1.1e-20 * 1.002 := s5
    _ ≤ 1e-8 := by norm_num

/-- C8 counterexample: on the concrete scenario hull there are speeds
`0 ≤ v1 ≤ v2` whose Froude numbers are far below `0.5` (about `1e-7`) at
which the Holtrop total resistance strictly decreases: the counterexample
speeds have Reynolds numbers `10^(9/4) ≈ 178` and `10^(5/2) ≈ 316`, inside
the window `(100, 100e)` where the ITTC friction term `v^2/(log10(Rn)-2)^2`
is decreasing.  This refutes the claim that `RT` is non-decreasing in speed
for `computeHoltrop` whenever `Fn < 0.5`. -/
theorem holtrop_monotonicity_counterexample :
    0 ≤ cexSpeed1 ∧ cexSpeed1 ≤ cexSpeed2 ∧
    (holtropEntry standardHull cexSpeed1).froude < 0.5 ∧
    (holtropEntry standardHull cexSpeed2).froude < 0.5 ∧
    (holtropEntry standardHull cexSpeed2).resistance_total_N <
      (holtropEntry standardHull cexSpeed1).resistance_total_N := by
  have hv1pos : 0 < cexSpeed1 := by
    rw [cexSpeed1]
    unfold KINEMATIC_VISCOSITY
    positivity
  have h12 : cexSpeed1 ≤ cexSpeed2 := by
    rw [cexSpeed1, cexSpeed2]
    apply div_le_div_of_nonneg_right _ (by norm_num)
    apply mul_le_mul_of_nonneg_right b1_le_b2
    unfold KINEMATIC_VISCOSITY
    norm_num
  have hsqG : (0 : ℝ) < Real.sqrt (9.81 * 150) := lt_of_lt_of_le (by norm_num) sqrtG_ge
  have hFn2 : (holtropEntry standardHull cexSpeed2).froude < 0.5 := by
    rw [holtropEntry_froude, standardHull_L]
    unfold GRAVITY
    calc cexSpeed2 / Real.sqrt (9.81 * 150) < 6.62e-8 := cex_Fn2_lt
      _ < 0.5 := by norm_num
  have hFn1 : (holtropEntry standardHull cexSpeed1).froude < 0.5 := by
    rw [holtropEntry_froude, standardHull_L]
    unfold GRAVITY
    calc cexSpeed1 / Real.sqrt (9.81 * 150) ≤ cexSpeed2 / Real.sqrt (9.81 * 150) :=
        div_le_div_of_nonneg_right h12 hsqG.le
      _ < 6.62e-8 := cex_Fn2_lt
      _ < 0.5 := by norm_num
  refine ⟨hv1pos.le, h12, hFn1, hFn2, ?_⟩
  rw [holtropEntry_RT, holtropEntry_RT]
  have hdiff : (holtropEntry standardHull cexSpeed1).resistance_friction_N -
      (holtropEntry standardHull cexSpeed2).resistance_friction_N =
      0.5 * 1025 * standardHull.S * (KINEMATIC_VISCOSITY / 150) ^ 2 *
        (12000 * Real.sqrt 10 - 30000) := by
    rw [cex_RF1, cex_RF2, cexSpeed1_sq, cexSpeed2_sq]
    ring
  have hbr : (7920 : ℝ) < 12000 * Real.sqrt 10 - 30000 := by
    nlinarith [sqrt10_gt]
  have hgap : (1e-6 : ℝ) <
      (holtropEntry standardHull cexSpeed1).resistance_friction_N -
        (holtropEntry standardHull cexSpeed2).resistance_friction_N := by
    rw [hdiff]
    unfold KINEMATIC_VISCOSITY
    have h1 : (0.5 : ℝ) * 1025 * (1.1892e-6 / 150) ^ 2 * (6000 * 7920) ≤
        0.5 * 1025 * (1.1892e-6 / 150) ^ 2 *
          (standardHull.S * (12000 * Real.sqrt 10 - 30000)) := by
      apply mul_le_mul_of_nonneg_left _ (by norm_num)
      exact mul_le_mul standardHull_S_gt.le hbr.le (by norm_num)
        (by linarith [standardHull_S_gt])
    calc (1e-6 : ℝ) < 0.5 * 1025 * (1.1892e-6 / 150) ^ 2 * (6000 * 7920) := by norm_num
      _ ≤ 0.5 * 1025 * (1.1892e-6 / 150) ^ 2 *
          (standardHull.S * (12000 * Real.sqrt 10 - 30000)) := h1
      _ = 0.5 * 1025 * standardHull.S * (1.1892e-6 / 150) ^ 2 *
          (12000 * Real.sqrt 10 - 30000) := by ring
  have hRR2 := cex_RR2_le
  have hRR1 := cex_RR1_nonneg
  linarith

/-- C8 amended: for a hull with positive dimensions and volume, nonnegative
wetted surface and LCB (as auto-derived hulls are), the simple-method total
resistance is non-decreasing over every pair of speeds `0 ≤ v1 ≤ v2`;
the Holtrop total resistance is non-decreasing whenever moreover `v1 > 0`
and the smaller speed's Reynolds number satisfies
`log10(Rn) ≥ 2 + 1/ln 10` (about `Rn ≥ 272`, satisfied at all realistic
speeds) -- below that threshold the Holtrop `RT` can decrease even though
`Fn < 0.5`, see the counterexample. -/
theorem resistance_monotonicity_amended (hp : HullParameters)
    (hL : 0 < hp.L) (hB : 0 < hp.B) (hT : 0 < hp.T)
    (hV : 0 < hp.V) (hS : 0 ≤ hp.S) (hLCB : 0 ≤ hp.LCB)
    (v1 v2 : ℝ) (h0 : 0 ≤ v1) (h12 : v1 ≤ v2) :
    ((simpleEntry hp v1).resistance_total_N ≤
      (simpleEntry hp v2).resistance_total_N) ∧
    (0 < v1 → 2 + (Real.log 10)⁻¹ ≤
        Real.logb 10 (v1 * hp.L / KINEMATIC_VISCOSITY) →
      (holtropEntry hp v1).resistance_total_N ≤
        (holtropEntry hp v2).resistance_total_N) := by
  refine ⟨simple_RT_mono hp hS v1 v2 h0 h12, fun hv1 hth => ?_⟩
  rw [holtropEntry_RT, holtropEntry_RT]
  exact add_le_add (holtrop_RF_mono hp hL hS v1 v2 hv1 h12 hth)
    (holtrop_RR_mono hp hL hB hT hV hLCB v1 v2 hv1 h12)

/-- Witness for C8's amended theorem: both methods are monotone between
1 m/s and 2 m/s on the concrete scenario hull, with all hypotheses
discharged (the Reynolds threshold holds since `Rn(1 m/s) > 1000`). -/
theorem resistance_monotonicity_amended_witness :
    (simpleEntry standardHull 1).resistance_total_N ≤
      (simpleEntry standardHull 2).resistance_total_N ∧
    (holtropEntry standardHull 1).resistance_total_N ≤
      (holtropEntry standardHull 2).resistance_total_N := by
  have h := resistance_monotonicity_amended standardHull (by norm_num [standardHull])
    (by norm_num [standardHull]) (by norm_num [standardHull])
    (by rw [standardHull_V]; norm_num) standardHull_S_pos.le
    (by rw [standardHull_LCB]; norm_num) 1 2 (by norm_num) (by norm_num)
  refine ⟨h.1, h.2 (by norm_num) ?_⟩
  have h1000 : Real.logb 10 1000 = 3 := by
    rw [show ((1000 : ℝ) = (10 : ℝ) ^ (3 : ℝ)) from ?_,
      Real.logb_rpow (by norm_num) (by norm_num)]
    rw [show ((3 : ℝ) = ((3 : ℕ) : ℝ)) by norm_num, Real.rpow_natCast]
    norm_num
  have hlog : 1 < Real.log 10 := by
    rw [Real.lt_log_iff_exp_lt (by norm_num)]
    calc Real.exp 1 < 2.7182818286 := Real.exp_one_lt_d9
      _ < 10 := by norm_num
  have hinv : (Real.log 10)⁻¹ ≤ 1 := inv_le_one_iff₀.mpr (Or.inr hlog.le)
  have hle : Real.logb 10 1000 ≤
      Real.logb 10 (1 * standardHull.L / KINEMATIC_VISCOSITY) := by
    apply Real.logb_le_logb_of_le (by norm_num) (by norm_num)
    rw [standardHull_L]
    unfold KINEMATIC_VISCOSITY
    norm_num
  rw [h1000] at hle
  linarith

/-- C9 counterexample: with the same locale argument (absent, the default
`None`), two `summary` calls under different process-wide `Config.LANGUAGE`
values return different reports -- the label set is selected by the mutable
global, refuting the claim that the output is independent of global
language configuration for every locale argument. -/
theorem summary_global_dependence_counterexample :
    standardHull.summary none "portuguese" ≠ standardHull.summary none "english" := by
  simp [HullParameters.summary]

/-- C9 amended: `summary` is a pure function of the nine fields, the locale
parameter and the global `Config.LANGUAGE`; the label set is selected by the
parameter alone (independent of the global) exactly when a non-empty locale
string is passed explicitly; with the parameter `None` (the default) or the
falsy empty string, Python's `language or Config.LANGUAGE` falls back to the
mutable global. -/
theorem summary_parameter_determined (h : HullParameters) (s : String)
    (hs : s ≠ "") (g1 g2 : String) :
    h.summary (some s) g1 = h.summary (some s) g2 := by
  simp [HullParameters.summary, hs]

/-- Witness for C9's amended theorem: an explicitly passed locale determines
the report regardless of the global language. -/
theorem summary_parameter_determined_witness :
    standardHull.summary (some "portuguese") "english" =
      standardHull.summary (some "portuguese") "portuguese" :=
  summary_parameter_determined standardHull "portuguese" (by decide)
    "english" "portuguese"

/-- C2: constructing a `HullParameters` checks `L>0`, `B>0`, `T>0` and
`0.3 ≤ CB ≤ 1.0`, collects all violated rules (not fail-fast) into one single
aggregated error listing every violated constraint plus a guidance note when
CB is out of range, and returns no partial object on any violation; CB = 0.3
and CB = 1.0 are accepted, CB = 0.2999 and CB = 1.0001 are rejected with an
error enumerating the CB violation, and L = 0 together with CB = 2.0 yields a
single error listing both the length violation and the CB violation. -/
theorem validation_aggregation :
    (∀ L B T CB : ℝ, ∀ CM LCB S V APP : Option ℝ,
      ¬ (0 < L ∧ 0 < B ∧ 0 < T ∧ 0.3 ≤ CB ∧ CB ≤ 1.0) →
      HullParameters.create L B T CB CM LCB S V APP =
        Except.error (validationErrors L B T CB)) ∧
    (∀ L B T CB : ℝ,
      (L ≤ 0 → ValidationMsg.lengthPositive ∈ validationErrors L B T CB) ∧
      (B ≤ 0 → ValidationMsg.beamPositive ∈ validationErrors L B T CB) ∧
      (T ≤ 0 → ValidationMsg.draftPositive ∈ validationErrors L B T CB) ∧
      (¬ (0.3 ≤ CB ∧ CB ≤ 1.0) →
        ValidationMsg.cbRange CB ∈ validationErrors L B T CB ∧
        ValidationMsg.cbHint ∈ validationErrors L B T CB)) ∧
    (∃ hp, HullParameters.create 150 20 8 0.3 none none none none none = Except.ok hp) ∧
    (∃ hp, HullParameters.create 150 20 8 1.0 none none none none none = Except.ok hp) ∧
    HullParameters.create 150 20 8 0.2999 none none none none none =
      Except.error [ValidationMsg.cbRange 0.2999, ValidationMsg.cbHint] ∧
    HullParameters.create 150 20 8 1.0001 none none none none none =
      Except.error [ValidationMsg.cbRange 1.0001, ValidationMsg.cbHint] ∧
    HullParameters.create 0 20 8 2.0 none none none none none =
      Except.error [ValidationMsg.lengthPositive, ValidationMsg.cbRange 2.0,
        ValidationMsg.cbHint] := by
  refine ⟨fun L B T CB CM LCB S V APP h => create_error_of_violation L B T CB CM LCB S V APP h,
    fun L B T CB => ⟨?_, ?_, ?_, ?_⟩, ?_, ?_, ?_, ?_, ?_⟩
  · intro h; unfold validationErrors; simp [h]
  · intro h; unfold validationErrors; simp [h]
  · intro h; unfold validationErrors; simp [h]
  · intro h; unfold validationErrors; simp [h]
  · exact (create_ok_iff 150 20 8 0.3 none none none none none).mpr (by norm_num)
  · exact (create_ok_iff 150 20 8 1.0 none none none none none).mpr (by norm_num)
  · rw [create_error_of_violation 150 20 8 0.2999 none none none none none (by norm_num)]
    unfold validationErrors; norm_num
  · rw [create_error_of_violation 150 20 8 1.0001 none none none none none (by norm_num)]
    unfold validationErrors; norm_num
  · rw [create_error_of_violation 0 20 8 2.0 none none none none none (by norm_num)]
    unfold validationErrors; norm_num

/-- Witness for C2: instantiates the universally quantified parts at a
concrete violating input and discharges their hypotheses. -/
theorem validation_aggregation_witness :
    HullParameters.create 0 20 8 2.0 (some 1) none none none none =
      Except.error (validationErrors 0 20 8 2.0) ∧
    ValidationMsg.lengthPositive ∈ validationErrors 0 20 8 2.0 ∧
    ValidationMsg.cbRange 2.0 ∈ validationErrors 0 20 8 2.0 :=
  ⟨validation_aggregation.1 0 20 8 2.0 (some 1) none none none none (by norm_num),
   (validation_aggregation.2.1 0 20 8 2.0).1 (by norm_num),
   ((validation_aggregation.2.1 0 20 8 2.0).2.2.2 (by norm_num)).1⟩

/-- C10: construction errors exactly when one of the four constraints on
`L`, `B`, `T`, `CB` is violated -- the caller-supplied optional values
`CM, LCB, V, S, APP` undergo no range check whatsoever -- and any supplied
optional value is preserved verbatim, never overwritten by the completion
formulas (so, e.g., a hull with a supplied `S = -1` and `V = 0` is
accepted and keeps those values). -/
theorem optional_fields_unchecked :
    (∀ L B T CB : ℝ, ∀ CM LCB S V APP : Option ℝ,
      (∃ hp, HullParameters.create L B T CB CM LCB S V APP = Except.ok hp) ↔
        (0 < L ∧ 0 < B ∧ 0 < T ∧ 0.3 ≤ CB ∧ CB ≤ 1.0)) ∧
    (∀ L B T CB : ℝ, ∀ CM LCB S V APP : Option ℝ, ∀ hp,
      HullParameters.create L B T CB CM LCB S V APP = Except.ok hp →
      (∀ x, CM = some x → hp.CM = x) ∧ (∀ x, LCB = some x → hp.LCB = x) ∧
      (∀ x, S = some x → hp.S = x) ∧ (∀ x, V = some x → hp.V = x) ∧
      (∀ x, APP = some x → hp.APP = x)) ∧
    (∃ hp, HullParameters.create 150 20 8 0.7 none none (some (-1)) (some 0) none =
        Except.ok hp ∧ hp.S = -1 ∧ hp.V = 0) := by
  refine ⟨create_ok_iff, ?_, ?_⟩
  · intro L B T CB CM LCB S V APP hp h
    have := create_ok_elim L B T CB CM LCB S V APP hp h
    subst this
    refine ⟨?_, ?_, ?_, ?_, ?_⟩ <;> rintro x rfl <;> rfl
  · have h : (0:ℝ) < 150 ∧ (0:ℝ) < 20 ∧ (0:ℝ) < 8 ∧ (0.3:ℝ) ≤ 0.7 ∧ (0.7:ℝ) ≤ 1.0 := by
      norm_num
    obtain ⟨hp, hhp⟩ :=
      (create_ok_iff 150 20 8 0.7 none none (some (-1)) (some 0) none).mpr h
    refine ⟨hp, hhp, ?_, ?_⟩
    · have := create_ok_elim 150 20 8 0.7 none none (some (-1)) (some 0) none hp hhp
      subst this; rfl
    · have := create_ok_elim 150 20 8 0.7 none none (some (-1)) (some 0) none hp hhp
      subst this; rfl

/-- Witness for C10: the characterization applied at a concrete input with a
negative supplied wetted surface, discharging the hypotheses. -/
theorem optional_fields_unchecked_witness :
    (∃ hp, HullParameters.create 1 1 1 0.5 none none (some (-7)) none none = Except.ok hp) ∧
    ∀ hp, HullParameters.create 1 1 1 0.5 none none (some (-7)) none none = Except.ok hp →
      hp.S = -7 :=
  ⟨(optional_fields_unchecked.1 1 1 1 0.5 none none (some (-7)) none none).mpr (by norm_num),
   fun hp h =>
    (optional_fields_unchecked.2.1 1 1 1 0.5 none none (some (-7)) none none hp h).2.2.1
      (-7) rfl⟩

end
